import Mathlib

/-!
Verification of the epd-waveshare driver sources: a shallow embedding of
the panel drivers (epd1in54 v2, epd1in54b, epd5in83b v2, epd7in5 v3
command table) together with theorems about their window arithmetic,
bit expansion, framing and error behaviour.

Machine integers are modelled as Nat with explicit reductions modulo
2 ^ 8, 2 ^ 16 or 2 ^ 32 exactly where the Rust code casts or where an
operation can wrap. SPI traffic is modelled as a list of logical frames:
a command frame (data/command line low) or a data frame (data/command
line high), mirroring the DisplayInterface framing primitives.
-/

namespace EpdWaveshare

/-- Modelled from the spec: the DisplayInterface (BusFramer) is not part
of the provided sources; per the spec a bus transaction is either a
single command frame or a data frame carrying a byte sequence, and
frames are never interleaved. A driver call therefore produces a list
of such frames. `C` is the per-panel command type. -/
inductive Frame (C : Type) where
  | cmd (c : C) : Frame C
  | data (bytes : List Nat) : Frame C
deriving DecidableEq

/-- Modelled from the spec: cmd_with_data frames one command byte and
then the payload as a data frame (command frame always precedes its
data frame). -/
def cmdWithData {C : Type} (c : C) (bytes : List Nat) : List (Frame C) :=
  [Frame.cmd c, Frame.data bytes]

/-- Modelled from the spec: data_x_times (repeatByte) writes the same
byte `count` times as a single logical data frame. -/
def dataXTimes {C : Type} (val : Nat) (count : Nat) : List (Frame C) :=
  [Frame.data (List.replicate count val)]

/-- Modelled from the spec: the interface busy predicate normalizes the
sampled busy line against the polarity flag passed by the driver; with
busy-active-low the panel is busy while the line reads low, otherwise
while it reads high. `line` is the sampled level of the busy pin. -/
def interfaceIsBusy (isBusyLow : Bool) (line : Bool) : Bool :=
  if isBusyLow then !line else line

namespace Epd1in54b

/-- Width of epd1in54 in pixels (source constant). -/
def WIDTH : Nat := 200

/-- Height of epd1in54 in pixels (source constant). -/
def HEIGHT : Nat := 200

/-- Busy polarity flag of the epd1in54b driver (source constant). -/
def IS_BUSY_LOW : Bool := true

/-- Shallow embedding of `fn expand_bits(bits: u8) -> [u8; 2]` from
src/epd1in54b/mod.rs. The input is a byte; u16 arithmetic is modelled
as Nat with reductions modulo 2 ^ 16 wherever a shift could wrap, and
the two returned bytes keep the source order (first element is the
byte the driver transmits first, `(x >> 8) as u8`). -/
def expand_bits (bits : Nat) : Nat × Nat :=
  let x0 : Nat := bits
  let x1 : Nat := (x0 ||| ((x0 <<< 4) % 65536)) &&& 0x0F0F
  let x2 : Nat := (x1 ||| ((x1 <<< 2) % 65536)) &&& 0x3333
  let x3 : Nat := (x2 ||| ((x2 <<< 1) % 65536)) &&& 0x5555
  let x4 : Nat := (x3 ||| ((x3 <<< 1) % 65536)) % 65536
  ((x4 >>> 8) % 256, (x4 &&& 0xFF) % 256)

/-- Decoder used to state the round-trip property: extract the eight
even-position bits of the 16-bit concatenation. -/
def decode_even (v : Nat) : Nat :=
  (List.range 8).foldl (fun acc i => acc + (if v.testBit (2 * i) then 2 ^ i else 0)) 0

end Epd1in54b

/-- Modulus of u32 arithmetic. -/
def u32Mod : Nat := 4294967296

/-- Modelled from the spec: src/color.rs is not among the provided
sources; the spec fixes the default background as White with byte value
0xFF, and the achromatic palette as Black/White. -/
inductive Color where
  | Black : Color
  | White : Color
deriving DecidableEq

/-- Modelled from the spec: byte value of a color, White = 0xFF. -/
def Color.get_byte_value : Color → Nat
  | Color.Black => 0x00
  | Color.White => 0xFF

namespace Epd1in54v2

/-- Width of the display (source constant, src/epd1in54_v2/mod.rs). -/
def WIDTH : Nat := 200

/-- Height of the display (source constant). -/
def HEIGHT : Nat := 200

/-- Default background color (source constant). -/
def DEFAULT_BACKGROUND_COLOR : Color := Color.White

/-- Busy polarity flag of the epd1in54 v2 driver (source constant). -/
def IS_BUSY_LOW : Bool := false

/-- Commands of the type_a command table that the modelled functions of
src/epd1in54_v2/mod.rs issue. The command table itself
(src/type_a/command.rs) is not among the provided sources, so commands
stay symbolic; the interface treats them as opaque anyway. -/
inductive Command where
  | SetRamXAddressStartEndPosition : Command
  | SetRamYAddressStartEndPosition : Command
  | SetRamXAddressCounter : Command
  | SetRamYAddressCounter : Command
  | WriteRam : Command
  | WriteRam2 : Command
deriving DecidableEq

/-- Busy predicate of the driver: the shared interface predicate applied
to the IS_BUSY_LOW flag of this panel (src/epd1in54_v2/mod.rs is_busy). -/
def is_busy (line : Bool) : Bool :=
  interfaceIsBusy IS_BUSY_LOW line

/-- Shallow embedding of set_ram_area (src/epd1in54_v2/mod.rs). The two
assertions start_x < end_x and start_y < end_y run before any interface
call, so a failing assertion panics with no frame transmitted: modelled
as none. Otherwise the X window bytes (pixel coordinates shifted right
by 3, cast to u8) and the Y bounds (low byte then high byte of the raw
pixel values) are framed. wait_until_idle transmits nothing and is not
part of the trace. -/
def setRamArea (start_x start_y end_x end_y : Nat) :
    Option (List (Frame Command)) :=
  if start_x < end_x ∧ start_y < end_y then
    some (cmdWithData Command.SetRamXAddressStartEndPosition
            [(start_x >>> 3) % 256, (end_x >>> 3) % 256] ++
          cmdWithData Command.SetRamYAddressStartEndPosition
            [start_y % 256, (start_y >>> 8) % 256,
             end_y % 256, (end_y >>> 8) % 256])
  else
    none

/-- Shallow embedding of set_ram_counter (src/epd1in54_v2/mod.rs). -/
def setRamCounter (x y : Nat) : List (Frame Command) :=
  cmdWithData Command.SetRamXAddressCounter [(x >>> 3) % 256] ++
  cmdWithData Command.SetRamYAddressCounter [y % 256, (y >>> 8) % 256]

/-- Shallow embedding of update_partial_frame (src/epd1in54_v2/mod.rs):
set_ram_area is called with end coordinates x + width and y + height
(u32 additions, modelled modulo 2 ^ 32), then set_ram_counter, then the
buffer is framed after the WriteRam command. -/
def update_partial_frame (buffer : List Nat) (x y width height : Nat) :
    Option (List (Frame Command)) :=
  (setRamArea x y ((x + width) % u32Mod) ((y + height) % u32Mod)).map
    (fun w => w ++ setRamCounter x y ++ cmdWithData Command.WriteRam buffer)

/-- Shallow embedding of use_full_frame (src/epd1in54_v2/mod.rs): the
full window 0..WIDTH-1, 0..HEIGHT-1 followed by a counter reset. The
end coordinates passed here are the last pixel of the panel, so the
controller X end byte is inclusive: bytes 0..24 hold the 200 pixels of
a row. -/
def use_full_frame : Option (List (Frame Command)) :=
  (setRamArea 0 0 (WIDTH - 1) (HEIGHT - 1)).map
    (fun w => w ++ setRamCounter 0 0)

/-- Shallow embedding of clear_frame (src/epd1in54_v2/mod.rs): full
frame window, then for each of the two RAM planes the write command
followed by WIDTH / 8 * HEIGHT repetitions of the background color byte
as one data frame (data_x_times). -/
def clear_frame (background_color : Color) :
    Option (List (Frame Command)) :=
  use_full_frame.map (fun w =>
    w ++ [Frame.cmd Command.WriteRam] ++
    dataXTimes background_color.get_byte_value (WIDTH / 8 * HEIGHT) ++
    [Frame.cmd Command.WriteRam2] ++
    dataXTimes background_color.get_byte_value (WIDTH / 8 * HEIGHT))

/-- First pixel covered by a byte-granular X window starting at byte
sb. -/
def coveredLo (sb : Nat) : Nat := 8 * sb

/-- One past the last pixel covered by a byte-granular X window ending
at byte eb; the controller X end byte is inclusive (use_full_frame
addresses the 200-pixel row with end byte 24). -/
def coveredHi (eb : Nat) : Nat := 8 * eb + 8

end Epd1in54v2

namespace Epd1in54b

/-- Busy predicate of the driver: the shared interface predicate applied
to the IS_BUSY_LOW flag of this panel (src/epd1in54b/mod.rs is_busy). -/
def is_busy (line : Bool) : Bool :=
  interfaceIsBusy IS_BUSY_LOW line

/-- Commands of src/epd1in54b/command.rs referenced by the modelled
functions; the command table file is not among the provided sources, so
commands stay symbolic. -/
inductive Command where
  | DataStartTransmission1 : Command
  | DataStartTransmission2 : Command
  | ResolutionSetting : Command
deriving DecidableEq

/-- Outcome of a driver call that can panic: either a trace of frames
or a panic with nothing transmitted. -/
inductive Outcome (C : Type) where
  | ok (frames : List (Frame C)) : Outcome C
  | panicked : Outcome C
deriving DecidableEq

/-- Shallow embedding of update_partial_frame (src/epd1in54b/mod.rs):
the body is a single `unimplemented!()`, so every call panics before
transmitting anything. -/
def update_partial_frame (_buffer : List Nat) (_x _y _width _height : Nat) :
    Outcome Command :=
  Outcome.panicked

end Epd1in54b

namespace Epd5in83

/-- Width of the display (source constant, src/epd5in83b_v2/mod.rs). -/
def WIDTH : Nat := 648

/-- Height of the display (source constant). -/
def HEIGHT : Nat := 480

/-- Busy polarity flag of the epd5in83 driver (source constant). -/
def IS_BUSY_LOW : Bool := true

/-- NUM_DISPLAY_BITS source constant. -/
def NUM_DISPLAY_BITS : Nat := WIDTH * HEIGHT / 8

/-- Commands of src/epd5in83b_v2/command.rs referenced by the modelled
functions; the command table file is not among the provided sources, so
commands stay symbolic. -/
inductive Command where
  | PartialIn : Command
  | PartialWindow : Command
  | DataStartTransmission1 : Command
  | DataStartTransmission2 : Command
  | DisplayRefresh : Command
  | PartialOut : Command
deriving DecidableEq

/-- Modelled from the spec: TriColor lives in src/color.rs, which is
not among the provided sources; the black byte value of the chromatic
plane is 0x00 (the source comment says the red channel is rendered
transparent by filling it black). -/
def triColorBlackByte : Nat := 0x00

/-- Fourth byte of the partial-window payload of update_partial_frame
(src/epd5in83b_v2/mod.rs line 216): hred_lower =
(((x + width) / 8) << 3) as u8 & 0b111, with the u32 addition and
shift wrapping modulo 2 ^ 32 and the u8 cast reducing modulo 256. -/
def hredLower (x width : Nat) : Nat :=
  ((((((x + width) % u32Mod) / 8) <<< 3) % u32Mod) % 256) &&& 0b111

/-- Shallow embedding of update_partial_frame (src/epd5in83b_v2/mod.rs).
The length check on the buffer (buffer.len() != width / 8 * height) has
an empty body in the source, marked with a TODO comment, so it has no
effect on the trace: the buffer is framed unconditionally. All u32
arithmetic wraps modulo 2 ^ 32 and every u8 cast reduces modulo 256. -/
def update_partial_frame (buffer : List Nat) (x y width height : Nat) :
    List (Frame Command) :=
  let hrst_upper := ((x / 8) % 256) >>> 6
  let hrst_lower := ((((x / 8) <<< 3) % u32Mod) % 256)
  let hred_upper := ((((x + width) % u32Mod) / 8) % 256) >>> 6
  let hred_lower := hredLower x width
  let vrst_upper := (y >>> 8) % 256
  let vrst_lower := y % 256
  let vred_upper := (((y + height) % u32Mod) >>> 8) % 256
  let vred_lower := ((y + height) % u32Mod) % 256
  let pt_scan := 0x01
  [Frame.cmd Command.PartialIn, Frame.cmd Command.PartialWindow,
   Frame.data [hrst_upper, hrst_lower, hred_upper, hred_lower,
               vrst_upper, vrst_lower, vred_upper, vred_lower, pt_scan],
   Frame.cmd Command.DataStartTransmission1, Frame.data buffer,
   Frame.cmd Command.DataStartTransmission2] ++
  dataXTimes triColorBlackByte ((width * height % u32Mod) / 8) ++
  [Frame.cmd Command.DisplayRefresh, Frame.cmd Command.PartialOut]

end Epd5in83

namespace Epd7in5v3

/-- Shallow embedding of the Command enumeration of
src/epd7in5_v3/command.rs, one constructor per variant. -/
inductive Command where
  | PanelSetting : Command
  | PowerSetting : Command
  | PowerOff : Command
  | PowerOffSequenceSetting : Command
  | PowerOn : Command
  | BoosterSoftStart : Command
  | DeepSleep : Command
  | DataStartTransmission1 : Command
  | DataStop : Command
  | DisplayRefresh : Command
  | DataStartTransmission2 : Command
  | DualSpi : Command
  | LutForVcom : Command
  | LutBlack : Command
  | LutWhite : Command
  | LutGray1 : Command
  | LutGray2 : Command
  | LutRed0 : Command
  | LutRed1 : Command
  | LutRed2 : Command
  | LutRed3 : Command
  | LutXon : Command
  | PllControl : Command
  | TemperatureSensor : Command
  | TemperatureCalibration : Command
  | TemperatureSensorWrite : Command
  | TemperatureSensorRead : Command
  | VcomAndDataIntervalSetting : Command
  | LowPowerDetection : Command
  | TconSetting : Command
  | TconResolution : Command
  | SpiFlashControl : Command
  | Revision : Command
  | GetStatus : Command
  | AutoMeasurementVcom : Command
  | ReadVcomValue : Command
  | VcmDcSetting : Command
deriving DecidableEq

/-- Declared discriminant of each variant of the Command enumeration,
as written in src/epd7in5_v3/command.rs. -/
def Command.discriminant : Command → Nat
  | Command.PanelSetting => 0x00
  | Command.PowerSetting => 0x01
  | Command.PowerOff => 0x02
  | Command.PowerOffSequenceSetting => 0x03
  | Command.PowerOn => 0x04
  | Command.BoosterSoftStart => 0x06
  | Command.DeepSleep => 0x07
  | Command.DataStartTransmission1 => 0x10
  | Command.DataStop => 0x11
  | Command.DisplayRefresh => 0x12
  | Command.DataStartTransmission2 => 0x13
  | Command.DualSpi => 0x15
  | Command.LutForVcom => 0x20
  | Command.LutBlack => 0x21
  | Command.LutWhite => 0x22
  | Command.LutGray1 => 0x23
  | Command.LutGray2 => 0x24
  | Command.LutRed0 => 0x25
  | Command.LutRed1 => 0x26
  | Command.LutRed2 => 0x27
  | Command.LutRed3 => 0x28
  | Command.LutXon => 0x29
  | Command.PllControl => 0x30
  | Command.TemperatureSensor => 0x40
  | Command.TemperatureCalibration => 0x41
  | Command.TemperatureSensorWrite => 0x42
  | Command.TemperatureSensorRead => 0x43
  | Command.VcomAndDataIntervalSetting => 0x50
  | Command.LowPowerDetection => 0x51
  | Command.TconSetting => 0x60
  | Command.TconResolution => 0x61
  | Command.SpiFlashControl => 0x65
  | Command.Revision => 0x70
  | Command.GetStatus => 0x71
  | Command.AutoMeasurementVcom => 0x80
  | Command.ReadVcomValue => 0x81
  | Command.VcmDcSetting => 0x82

/-- Shallow embedding of the address method of
src/epd7in5_v3/command.rs, whose body is the expression `self as u8`:
the u8 cast of the declared discriminant. -/
def Command.address (c : Command) : Nat :=
  c.discriminant % 256

end Epd7in5v3

end EpdWaveshare

open EpdWaveshare

set_option maxRecDepth 100000

/-- C1: for every 8-bit input b, expand_bits b yields a 16-bit value
(first returned byte = high 8 bits) in which output bits 2i and 2i+1
both equal input bit i for every i < 8, bit 7 of the input lands in the
first transmitted byte (bits 14 and 15 of the concatenation), and
extracting the even-position bits reconstructs b exactly. -/
theorem c1_expand_bits_duplicates_and_roundtrip :
    ∀ b : Nat, b < 256 →
      (∀ i : Nat, i < 8 →
        (((Epd1in54b.expand_bits b).1 * 256 + (Epd1in54b.expand_bits b).2).testBit (2 * i)
            = b.testBit i ∧
         ((Epd1in54b.expand_bits b).1 * 256 + (Epd1in54b.expand_bits b).2).testBit (2 * i + 1)
            = b.testBit i)) ∧
      (Epd1in54b.expand_bits b).1
          = ((Epd1in54b.expand_bits b).1 * 256 + (Epd1in54b.expand_bits b).2) >>> 8 ∧
      (((Epd1in54b.expand_bits b).1 * 256 + (Epd1in54b.expand_bits b).2).testBit 14
          = b.testBit 7 ∧
       ((Epd1in54b.expand_bits b).1 * 256 + (Epd1in54b.expand_bits b).2).testBit 15
          = b.testBit 7) ∧
      Epd1in54b.decode_even ((Epd1in54b.expand_bits b).1 * 256 + (Epd1in54b.expand_bits b).2)
          = b := by
  decide

/-- Witness for C1 at the concrete input b = 182. -/
theorem c1_expand_bits_witness :
    (182 : Nat) < 256 ∧
      Epd1in54b.decode_even
        ((Epd1in54b.expand_bits 182).1 * 256 + (Epd1in54b.expand_bits 182).2) = 182 := by
  refine ⟨by decide, ?_⟩
  exact (c1_expand_bits_duplicates_and_roundtrip 182 (by decide)).2.2.2

/-- Helper: the exact frame trace of update_partial_frame for a
non-degenerate rectangle inside the 200 x 200 panel. The transmitted X
window bytes are x / 8 and (x + width) / 8, and the Y bounds are the
raw pixel values y and y + height, each split into low byte then high
byte. -/
theorem epd1in54v2_upf_trace (buffer : List Nat) (x y width height : Nat)
    (hw : 0 < width) (hh : 0 < height)
    (hx : x + width ≤ 200) (hy : y + height ≤ 200) :
    Epd1in54v2.update_partial_frame buffer x y width height =
      some ([Frame.cmd Epd1in54v2.Command.SetRamXAddressStartEndPosition,
             Frame.data [x / 8, (x + width) / 8],
             Frame.cmd Epd1in54v2.Command.SetRamYAddressStartEndPosition,
             Frame.data [y % 256, y / 256, (y + height) % 256, (y + height) / 256]] ++
            Epd1in54v2.setRamCounter x y ++
            [Frame.cmd Epd1in54v2.Command.WriteRam, Frame.data buffer]) := by
  have hxw : (x + width) % u32Mod = x + width :=
    Nat.mod_eq_of_lt (by unfold u32Mod; omega)
  have hyh : (y + height) % u32Mod = y + height :=
    Nat.mod_eq_of_lt (by unfold u32Mod; omega)
  unfold Epd1in54v2.update_partial_frame Epd1in54v2.setRamArea
  rw [hxw, hyh, if_pos ⟨by omega, by omega⟩]
  simp only [Option.map_some, cmdWithData, List.cons_append, List.nil_append,
    Option.some.injEq, List.cons.injEq, Frame.data.injEq, Nat.shiftRight_eq_div_pow]
  norm_num
  omega

/-- C2 counterexample: the claim predicts an X end byte of
(x + width - 1) >>> 3 = 24 for the rectangle x 0, y 0, width 200,
height 200, but the driver transmits (x + width) >>> 3 = 25. -/
theorem c2_counterexample :
    Epd1in54v2.update_partial_frame [] 0 0 200 200 =
      some [Frame.cmd Epd1in54v2.Command.SetRamXAddressStartEndPosition,
            Frame.data [0, 25],
            Frame.cmd Epd1in54v2.Command.SetRamYAddressStartEndPosition,
            Frame.data [0, 0, 200, 0],
            Frame.cmd Epd1in54v2.Command.SetRamXAddressCounter,
            Frame.data [0],
            Frame.cmd Epd1in54v2.Command.SetRamYAddressCounter,
            Frame.data [0, 0],
            Frame.cmd Epd1in54v2.Command.WriteRam,
            Frame.data []] ∧
    (0 + 200 - 1) >>> 3 = 24 ∧ (25 : Nat) ≠ 24 := by
  refine ⟨by decide, by decide, by decide⟩

/-- C2 (amended): for every partial-update rectangle with positive
width and height inside the 200 x 200 panel, the transmitted window has
X start byte x >>> 3 = x / 8 and X end byte (x + width) >>> 3 =
(x + width) / 8 (not (x + width - 1) >>> 3), and the Y bounds are the
raw pixel values y and y + height, each sent as low byte then high
byte. -/
theorem c2_partial_window_transmitted_bytes
    (buffer : List Nat) (x y width height : Nat)
    (hw : 0 < width) (hh : 0 < height)
    (hx : x + width ≤ 200) (hy : y + height ≤ 200) :
    Epd1in54v2.update_partial_frame buffer x y width height =
      some ([Frame.cmd Epd1in54v2.Command.SetRamXAddressStartEndPosition,
             Frame.data [x / 8, (x + width) / 8],
             Frame.cmd Epd1in54v2.Command.SetRamYAddressStartEndPosition,
             Frame.data [y % 256, y / 256, (y + height) % 256, (y + height) / 256]] ++
            Epd1in54v2.setRamCounter x y ++
            [Frame.cmd Epd1in54v2.Command.WriteRam, Frame.data buffer]) :=
  epd1in54v2_upf_trace buffer x y width height hw hh hx hy

/-- Witness for C2 at the rectangle x 0, y 0, width 200, height 200:
the X window bytes are 0 and 25, the Y end 200 is sent as low/high
bytes 0xC8, 0x00. -/
theorem c2_partial_window_witness :
    Epd1in54v2.update_partial_frame [17] 0 0 200 200 =
      some [Frame.cmd Epd1in54v2.Command.SetRamXAddressStartEndPosition,
            Frame.data [0, 25],
            Frame.cmd Epd1in54v2.Command.SetRamYAddressStartEndPosition,
            Frame.data [0, 0, 0xC8, 0x00],
            Frame.cmd Epd1in54v2.Command.SetRamXAddressCounter,
            Frame.data [0],
            Frame.cmd Epd1in54v2.Command.SetRamYAddressCounter,
            Frame.data [0, 0],
            Frame.cmd Epd1in54v2.Command.WriteRam,
            Frame.data [17]] := by
  have h := c2_partial_window_transmitted_bytes [17] 0 0 200 200
    (by decide) (by decide) (by decide) (by decide)
  simpa [Epd1in54v2.setRamCounter, cmdWithData] using h

/-- C3 counterexample: at x = 0, width = 8 the transmitted X window
bytes are 0 and 1, the inclusive byte range 0..1 covers 16 pixels, so
8 pixels of padding lie beyond the requested width, refuting the bound
of at most 7 extra pixels. -/
theorem c3_counterexample :
    Epd1in54v2.update_partial_frame [] 0 0 8 8 =
      some [Frame.cmd Epd1in54v2.Command.SetRamXAddressStartEndPosition,
            Frame.data [0, 1],
            Frame.cmd Epd1in54v2.Command.SetRamYAddressStartEndPosition,
            Frame.data [0, 0, 8, 0],
            Frame.cmd Epd1in54v2.Command.SetRamXAddressCounter,
            Frame.data [0],
            Frame.cmd Epd1in54v2.Command.SetRamYAddressCounter,
            Frame.data [0, 0],
            Frame.cmd Epd1in54v2.Command.WriteRam,
            Frame.data []] ∧
    Epd1in54v2.coveredHi 1 - Epd1in54v2.coveredLo 0 = 16 ∧
    ¬(16 - 8 ≤ 7) := by
  refine ⟨by decide, by decide, by decide⟩

/-- C3 (amended): for every non-degenerate rectangle inside the
200 x 200 panel, the transmitted byte-granular X window (start byte
x / 8, end byte (x + width) / 8, end byte inclusive) fully contains the
requested pixel range, has no padding before x when x is a multiple of
8, and covers at most 15 extra pixels of padding beyond the requested
width (up to 7 before x and up to 8 after the last requested pixel,
because the end byte is (x + width) >>> 3 rather than
(x + width - 1) >>> 3). -/
theorem c3_window_containment (buffer : List Nat) (x y width height : Nat)
    (hw : 0 < width) (hh : 0 < height)
    (hx : x + width ≤ 200) (hy : y + height ≤ 200) :
    ∃ rest : List (Frame Epd1in54v2.Command),
      Epd1in54v2.update_partial_frame buffer x y width height =
        some (Frame.cmd Epd1in54v2.Command.SetRamXAddressStartEndPosition ::
              Frame.data [x / 8, (x + width) / 8] :: rest) ∧
      Epd1in54v2.coveredLo (x / 8) ≤ x ∧
      x + width ≤ Epd1in54v2.coveredHi ((x + width) / 8) ∧
      (x % 8 = 0 → Epd1in54v2.coveredLo (x / 8) = x) ∧
      Epd1in54v2.coveredHi ((x + width) / 8) - Epd1in54v2.coveredLo (x / 8)
          ≤ width + 15 := by
  refine ⟨_, epd1in54v2_upf_trace buffer x y width height hw hh hx hy,
    ?_, ?_, ?_, ?_⟩ <;>
    simp only [Epd1in54v2.coveredLo, Epd1in54v2.coveredHi] <;> omega

/-- Witness for C3 at the rectangle x 3, y 0, width 10, height 5: the
byte window is bytes 0..1, covering pixels 0..15, which contains the
requested pixels 3..12 with 6 extra pixels of padding. -/
theorem c3_window_containment_witness :
    ∃ rest : List (Frame Epd1in54v2.Command),
      Epd1in54v2.update_partial_frame [] 3 0 10 5 =
        some (Frame.cmd Epd1in54v2.Command.SetRamXAddressStartEndPosition ::
              Frame.data [0, 1] :: rest) ∧
      Epd1in54v2.coveredLo 0 ≤ 3 ∧
      3 + 10 ≤ Epd1in54v2.coveredHi 1 ∧
      Epd1in54v2.coveredHi 1 - Epd1in54v2.coveredLo 0 ≤ 10 + 15 := by
  have h := c3_window_containment [] 3 0 10 5
    (by decide) (by decide) (by decide) (by decide)
  obtain ⟨rest, htrace, h1, h2, _, h4⟩ := h
  norm_num at htrace h1 h2 h4
  exact ⟨rest, htrace, h1, h2, h4⟩

/-- C4: for every degenerate window with width = 0 or height = 0, the
assertions of set_ram_area fail and update_partial_frame aborts with no
frame transmitted (modelled as none): with width = 0 the end coordinate
equals the start coordinate, so start_x < end_x fails, and likewise for
height = 0 on the Y axis; both assertions run before any interface
call. -/
theorem c4_degenerate_window_rejected
    (buffer : List Nat) (x y width height : Nat)
    (hx : x < u32Mod) (hy : y < u32Mod)
    (hdeg : width = 0 ∨ height = 0) :
    Epd1in54v2.update_partial_frame buffer x y width height = none := by
  rcases hdeg with h0 | h0 <;> subst h0 <;>
    simp [Epd1in54v2.update_partial_frame, Epd1in54v2.setRamArea,
      Nat.mod_eq_of_lt hx, Nat.mod_eq_of_lt hy]

/-- Witness for C4 at buffer [1, 2], x 3, y 4, width 0, height 5. -/
theorem c4_degenerate_window_witness :
    Epd1in54v2.update_partial_frame [1, 2] 3 4 0 5 = none :=
  c4_degenerate_window_rejected [1, 2] 3 4 0 5 (by decide) (by decide)
    (Or.inl rfl)

/-- C5: clear_frame with the default White background (byte value 0xFF)
transmits, after the full-frame window setup, for each of the two RAM
planes exactly WIDTH / 8 * HEIGHT = 5000 repeated 0xFF bytes as a
single data frame directly following that plane write command, with no
other command frame inside either run. -/
theorem c5_clear_frame_floods_both_planes :
    Epd1in54v2.clear_frame Epd1in54v2.DEFAULT_BACKGROUND_COLOR =
      some [Frame.cmd Epd1in54v2.Command.SetRamXAddressStartEndPosition,
            Frame.data [0, 24],
            Frame.cmd Epd1in54v2.Command.SetRamYAddressStartEndPosition,
            Frame.data [0, 0, 199, 0],
            Frame.cmd Epd1in54v2.Command.SetRamXAddressCounter,
            Frame.data [0],
            Frame.cmd Epd1in54v2.Command.SetRamYAddressCounter,
            Frame.data [0, 0],
            Frame.cmd Epd1in54v2.Command.WriteRam,
            Frame.data (List.replicate 5000 0xFF),
            Frame.cmd Epd1in54v2.Command.WriteRam2,
            Frame.data (List.replicate 5000 0xFF)] ∧
    Epd1in54v2.WIDTH / 8 * Epd1in54v2.HEIGHT = 5000 ∧
    Epd1in54v2.DEFAULT_BACKGROUND_COLOR.get_byte_value = 0xFF := by
  refine ⟨?_, by norm_num [Epd1in54v2.WIDTH, Epd1in54v2.HEIGHT], rfl⟩
  rfl

/-- C6 failing input: update_partial_frame of the epd5in83b v2 driver
with the empty buffer and width 8, height 1. The buffer length 0
differs from ceil(width / 8) * height = 1 (and from the source check
expression width / 8 * height = 1), yet the call completes normally and
the ill-sized buffer is framed after DataStartTransmission1: the length
check in the source has an empty body (a TODO comment), so nothing is
rejected. -/
theorem c6_length_check_has_no_effect :
    (List.length ([] : List Nat) ≠ (8 + 7) / 8 * 1) ∧
    (List.length ([] : List Nat) ≠ 8 / 8 * 1) ∧
    Epd5in83.update_partial_frame [] 0 0 8 1 =
      [Frame.cmd Epd5in83.Command.PartialIn,
       Frame.cmd Epd5in83.Command.PartialWindow,
       Frame.data [0, 0, 0, 0, 0, 0, 0, 1, 1],
       Frame.cmd Epd5in83.Command.DataStartTransmission1,
       Frame.data [],
       Frame.cmd Epd5in83.Command.DataStartTransmission2,
       Frame.data [0],
       Frame.cmd Epd5in83.Command.DisplayRefresh,
       Frame.cmd Epd5in83.Command.PartialOut] := by
  refine ⟨by decide, by decide, by decide⟩

/-- C7: each driver derives its busy state by applying the shared
interface predicate to its own polarity flag: the epd1in54 v2 driver
passes IS_BUSY_LOW = false (busy-active-high) and the epd1in54b driver
passes IS_BUSY_LOW = true (busy-active-low), so for every sampled line
level the two drivers report opposite busy states. -/
theorem c7_busy_polarity_per_panel :
    Epd1in54v2.IS_BUSY_LOW = false ∧
    Epd1in54b.IS_BUSY_LOW = true ∧
    (∀ line : Bool, Epd1in54v2.is_busy line = interfaceIsBusy false line) ∧
    (∀ line : Bool, Epd1in54b.is_busy line = interfaceIsBusy true line) ∧
    (∀ line : Bool, Epd1in54v2.is_busy line = line) ∧
    (∀ line : Bool, Epd1in54b.is_busy line = !line) := by
  refine ⟨rfl, rfl, fun line => rfl, fun line => rfl, ?_, ?_⟩ <;> decide

/-- C8: for every variant of the 7.5 inch v3 Command enumeration the
address method returns the declared one-byte opcode unchanged (the u8
cast does not alter any declared value, each being below 256), in
particular PanelSetting yields 0x00, DisplayRefresh yields 0x12 and
VcmDcSetting yields 0x82. -/
theorem c8_command_address_is_declared_opcode :
    (∀ c : Epd7in5v3.Command,
      Epd7in5v3.Command.address c = Epd7in5v3.Command.discriminant c ∧
      Epd7in5v3.Command.address c < 256) ∧
    Epd7in5v3.Command.address Epd7in5v3.Command.PanelSetting = 0x00 ∧
    Epd7in5v3.Command.address Epd7in5v3.Command.DisplayRefresh = 0x12 ∧
    Epd7in5v3.Command.address Epd7in5v3.Command.VcmDcSetting = 0x82 := by
  refine ⟨fun c => ?_, rfl, rfl, rfl⟩
  cases c <;> exact ⟨rfl, by decide⟩

/-- C9: the fourth byte of the partial-window payload of the epd5in83
driver, hred_lower = (((x + width) / 8) << 3) as u8 & 0b111, is zero
for every x and width: the left shift makes the three low bits zero,
the u8 cast keeps them zero, and the mask extracts exactly those three
bits. -/
theorem c9_hred_lower_always_zero :
    ∀ x width : Nat, Epd5in83.hredLower x width = 0 := by
  intro x width
  unfold Epd5in83.hredLower u32Mod
  rw [Nat.shiftLeft_eq]
  rw [show (0b111 : Nat) = 2 ^ 3 - 1 from rfl]
  rw [Nat.and_pow_two_sub_one_eq_mod]
  generalize (x + width) % 4294967296 / 8 = n
  rw [show (2 : Nat) ^ 3 = 8 from rfl]
  omega

/-- C10: update_partial_frame of the epd1in54b driver is a plain
`unimplemented!()`: every call panics, returning no frame trace, so
partial updates are unavailable on this panel. -/
theorem c10_epd1in54b_partial_update_panics :
    ∀ (buffer : List Nat) (x y width height : Nat),
      Epd1in54b.update_partial_frame buffer x y width height =
        Epd1in54b.Outcome.panicked := by
  intro buffer x y width height
  rfl
